import Mathlib

/-!
Verification of the USB data logger (`logger.py`) against its
natural-language specification.

The whole program is one Python file.  This development gives a shallow
embedding of its three components and proves the specification claims
about them:

* the device locator `find_esp32_port` (logger.py lines 38-44),
* the capture loop `start_logging_session` (lines 46-71) together with
  the issue logger `log_issue` (lines 33-36),
* the session controller loop `main` (lines 73-108).

Wall-clock instants (`time.time()` values) are modelled as rationals.
Byte sequences read from the serial device are modelled after decoding,
as the `String` the source obtains from
`ser.read(ser.in_waiting).decode(errors='replace')`; the decoding itself
is part of the external serial-channel collaborator.
-/

/-! ## Configuration constants (logger.py lines 21-31) -/

def VENDOR_ID : String := "303a"

def MANUFACTURER_NAME : String := "Espressif"

def LOG_DIR : String := "/home/roman/data_logger/LOGS"

def ISSUE_LOG_FILE : String := "/home/roman/data_logger/data_logger_issues_log.txt"

def SESSION_GRACE_PERIOD : ℚ := 2

def GRACE_CHECK_INTERVAL : ℚ := 1/10

def BAUD_RATE : Nat := 115200

def POST_DISCONNECT_FLUSH_DELAY : ℚ := 1

/-! ## Python truthiness

The source tests several values directly as conditions (`if port.vid and
port.manufacturer`, `if port_name`, `if grace_period_end and ...`).
Python truthiness on an optional integer / string / float is: `None` is
falsy, and so are `0`, the empty string and `0.0`. -/

/-- Truthiness of `port.vid` (an optional integer). -/
def vidTruthy : Option Nat → Bool
  | none => false
  | some v => v != 0

/-- Truthiness of an optional string (`port.manufacturer`, `port_name`). -/
def strTruthy : Option String → Bool
  | none => false
  | some s => s != ""

/-- Truthiness of `grace_period_end` (an optional float). -/
def qTruthy : Option ℚ → Bool
  | none => false
  | some d => decide (d ≠ 0)

/-! ## Device locator (`find_esp32_port`, logger.py lines 38-44) -/

/-- One descriptor from `serial.tools.list_ports.comports()`: the fields
the source reads are `vid` (optional integer), `manufacturer` (optional
string) and `device` (the port path returned on a match). -/
structure PortInfo where
  vid : Option Nat
  manufacturer : Option String
  device : String

/-- Lowercase hexadecimal digits of `n`, most significant first, as
produced by Python's `format(n, 'x')` for a non-negative `n`.  The first
argument is recursion fuel; `n` itself is always enough fuel. -/
def pyHexCore : Nat → Nat → List Char
  | 0, _ => []
  | fuel + 1, n =>
    if n < 16 then [Nat.digitChar n]
    else pyHexCore fuel (n / 16) ++ [Nat.digitChar (n % 16)]

/-- Python `format(n, 'x')`: lowercase hex without padding, `"0"` for 0. -/
def pyHex (n : Nat) : String := String.mk (pyHexCore (n + 1) n)

/-- Left-pad a string with the character `'0'` to length 4, as the `04`
in the format specification `'04x'` does. -/
def pad4 (s : String) : String :=
  String.mk (List.replicate (4 - s.length) '0' ++ s.data)

/-- Python `format(n, '04x')` (logger.py line 42). -/
def pyFormat04x (n : Nat) : String := pad4 (pyHex n)

/-- The list `needle` sits at the front of `hay`. -/
def leadsWith : List Char → List Char → Bool
  | [], _ => true
  | _ :: _, [] => false
  | a :: as, b :: bs => a == b && leadsWith as bs

/-- The list `needle` occurs contiguously somewhere in `hay`. -/
def occursIn (needle : List Char) : List Char → Bool
  | [] => needle.isEmpty
  | c :: rest => leadsWith needle (c :: rest) || occursIn needle rest

/-- Python's substring test `needle in hay` on strings
(logger.py line 42, `MANUFACTURER_NAME in port.manufacturer`). -/
def strContains (hay needle : String) : Bool := occursIn needle.data hay.data

/-- The device locator, logger.py lines 38-44.  It walks the enumerated
ports in order; for each port it first requires `port.vid and
port.manufacturer` (Python truthiness), then compares
`format(port.vid, '04x')` with `VENDOR_ID` and tests
`MANUFACTURER_NAME in port.manufacturer`.  Inside the guard the source
reads `port.vid` and `port.manufacturer` directly, which the guard has
established to be non-`None`; the embedding reads them with `Option.getD`
defaults that the guard makes unreachable. -/
def find_esp32_port : List PortInfo → Option String
  | [] => none
  | p :: rest =>
    if vidTruthy p.vid && strTruthy p.manufacturer then
      if pyFormat04x (p.vid.getD 0) == VENDOR_ID
          && strContains (p.manufacturer.getD "") MANUFACTURER_NAME then
        some p.device
      else find_esp32_port rest
    else find_esp32_port rest

/-- Modelled from the spec (section 4.1): the vendor identifier "equals a
configured constant (case-insensitive hex match)".  The comparison is
realized on canonical lowercase hexadecimal forms: the configured
constant `VENDOR_ID` is already lowercase, so comparing the lowercase
rendering of `v` against it is exactly a case-insensitive hex match. -/
def spec_vid_match (v : Nat) : Bool := pyHex v == VENDOR_ID

/-- Modelled from the spec (section 4.1): a port matches when its vendor
identifier equals the configured constant (case-insensitive hex match)
and its manufacturer string contains the configured substring.  A port
with no vendor identifier or no manufacturer string cannot match. -/
def spec_port_match (p : PortInfo) : Bool :=
  match p.vid, p.manufacturer with
  | some v, some m => spec_vid_match v && strContains m MANUFACTURER_NAME
  | _, _ => false

/-- Modelled from the spec (section 4.1): return the identifier of the
first matching port, or none when no port matches. -/
def find_esp32_port_spec (ports : List PortInfo) : Option String :=
  (ports.find? spec_port_match).map PortInfo.device

/-- The enumeration call `serial.tools.list_ports.comports()` on line 39
may raise.  `find_esp32_port` contains no `try`/`except` (lines 38-44),
so an error raised by the collaborator propagates to the caller
unchanged; only a successful enumeration reaches the matching loop.
Errors are modelled by their message string. -/
def find_esp32_port_exc (res : Except String (List PortInfo)) :
    Except String (Option String) :=
  match res with
  | Except.error e => Except.error e
  | Except.ok ports => Except.ok (find_esp32_port ports)

/-! ## Issue log and the capture-invocation boundary
(`log_issue` lines 33-36, `start_logging_session` lines 46-71) -/

/-- The line `log_issue` appends to `ISSUE_LOG_FILE` (lines 33-36):
`f'[{timestamp}] {message}\n'`, where `timestamp` is
`datetime.now().strftime('%Y-%m-%d %H:%M:%S')`, passed here as the
already-formatted string. -/
def log_issue (timestamp message : String) : String :=
  "[" ++ timestamp ++ "] " ++ message ++ "\n"

/-- What one call of `start_logging_session` does at its boundary:
`issue_lines` are the lines its handler appends to the issue log, and
`raised` is the exception it lets escape to `main`.  Lines 50-71: the
whole body (channel open, file open, read/write loop) sits inside
`try: ... except Exception as e:`; a body that raises `e` is answered by
`log_issue(f"Error during logging session: {e}")` followed by a normal
return, and a body that returns raises nothing and logs nothing. -/
structure CaptureOutcome where
  issue_lines : List String
  raised : Option String

/-- The exception boundary of `start_logging_session` (lines 50-71).
`ts_now` is the `datetime.now()` timestamp at which the handler would
run; `body` is the outcome of the guarded block, an error carrying the
message of the exception `e` it raised, if any. -/
def start_logging_session (ts_now : String) (body : Except String Unit) :
    CaptureOutcome :=
  match body with
  | Except.ok _ => { issue_lines := [], raised := none }
  | Except.error e =>
      { issue_lines := [log_issue ts_now ("Error during logging session: " ++ e)],
        raised := none }

/-! ## Capture-loop writes (`start_logging_session` body, lines 52-68)

The body's loop is driven by the environment: at each outer iteration
the source asks `os.path.exists(port_name)` and `ser.in_waiting`; once
existence fails it records `disconnect_time = time.time()` and runs the
inner flush-window loop, which at each iteration samples `time.time()`
for the `while` condition and `ser.in_waiting` for the drain.  A run is
therefore determined by a trace: one record per outer iteration, and one
`(time, buffered data)` pair per inner iteration.  `avail` is the
decoded content `ser.read(ser.in_waiting).decode(errors='replace')`
would return at that iteration; `ser.in_waiting` is truthy exactly when
that content is non-empty. -/

/-- Environment record for one outer loop iteration (lines 53-68):
the `os.path.exists(port_name)` answer and the buffer content. -/
structure OuterIter where
  devExists : Bool
  avail : String

/-- The write events of the inner flush-window loop (lines 56-61),
each tagged with the `time.time()` sample of the iteration that produced
it.  The loop runs while `time.time() - disconnect_time <
POST_DISCONNECT_FLUSH_DELAY`; at the first sample at which the condition
fails it stops, and lines 62-63 return. -/
def flush_window_writes (dtime : ℚ) : List (ℚ × String) → List (ℚ × String)
  | [] => []
  | (t, avail) :: rest =>
    if t - dtime < POST_DISCONNECT_FLUSH_DELAY then
      (if avail ≠ "" then [(t, avail)] else []) ++ flush_window_writes dtime rest
    else []

/-- The successive strings written (and flushed) to the log file by the
loop of lines 52-68: while `os.path.exists` holds, each outer iteration
with a non-empty buffer drains and writes it (lines 64-67); at the first
iteration where existence fails, the flush window runs (lines 53-63) and
the invocation returns, so nothing after it is written.  `dtime` is the
`disconnect_time` recorded on line 55, `inner` the flush-window trace. -/
def session_writes (dtime : ℚ) (inner : List (ℚ × String)) :
    List OuterIter → List String
  | [] => []
  | it :: rest =>
    if it.devExists then
      (if it.avail ≠ "" then [it.avail] else []) ++ session_writes dtime inner rest
    else
      (flush_window_writes dtime inner).map Prod.snd

/-- Concatenation of a list of written strings: the final content of the
log file, which was opened empty (mode `'w'`) on line 51. -/
def joinAll : List String → String
  | [] => ""
  | s :: rest => s ++ joinAll rest

/-- Final content of one invocation's log file, given its trace. -/
def log_content (dtime : ℚ) (outer : List OuterIter)
    (inner : List (ℚ × String)) : String :=
  joinAll (session_writes dtime inner outer)

/-! ## Log file naming (lines 46-48, 51) -/

/-- A wall-clock instant at the one-second granularity of the format
string `'%Y-%m-%d_%H-%M-%S'` on line 47: the six fields the format
renders.  Two instants inside the same second have equal fields. -/
structure DateTimeFields where
  year : Nat
  month : Nat
  day : Nat
  hour : Nat
  minute : Nat
  second : Nat

/-- Zero-padded two-digit decimal field, as `%m`, `%d`, `%H`, `%M`, `%S`
render. -/
def fmt2 (n : Nat) : String :=
  if n < 10 then "0" ++ Nat.repr n else Nat.repr n

/-- Four-digit year as `%Y` renders it for the years at hand. -/
def fmt4 (n : Nat) : String := Nat.repr n

/-- `datetime.now().strftime('%Y-%m-%d_%H-%M-%S')` (line 47). -/
def strftime_file (t : DateTimeFields) : String :=
  fmt4 t.year ++ "-" ++ fmt2 t.month ++ "-" ++ fmt2 t.day ++ "_"
    ++ fmt2 t.hour ++ "-" ++ fmt2 t.minute ++ "-" ++ fmt2 t.second

/-- `os.path.join(LOG_DIR, f'log_{timestamp}.txt')` (line 48):
`LOG_DIR` is absolute without a trailing slash and the file name is
relative, so the join inserts one separator. -/
def log_filename (t : DateTimeFields) : String :=
  LOG_DIR ++ "/" ++ ("log_" ++ strftime_file t ++ ".txt")

/-- File-system contents, path to content. -/
def FSystem : Type := String → String

/-- Opening `path` in mode `'w'` (line 51) truncates it to empty. -/
def fsOpenW (fs : FSystem) (path : String) : FSystem :=
  fun p => if p = path then "" else fs p

/-- Appending `data` to the open file at `path` (lines 59, 66). -/
def fsWrite (fs : FSystem) (path data : String) : FSystem :=
  fun p => if p = path then fs p ++ data else fs p

/-! ## Session controller (`main`, logger.py lines 73-108)

Controller state is the pair of loop variables of lines 77-78.  One
poll tick is one pass of the `while True` body (lines 80-108): call
`find_esp32_port`, branch on truthiness of the result, read the clock
in whichever branch needs it.  When the device is present the tick also
runs the blocking `start_logging_session(port_name)`, which does not
touch either loop variable. -/

/-- The two loop variables of `main` (lines 77-78). -/
structure ControllerState where
  session_active : Bool
  grace_period_end : Option ℚ
  deriving DecidableEq

/-- Initial controller state (lines 77-78). -/
def initialState : ControllerState :=
  { session_active := false, grace_period_end := none }

/-- The `if port_name:` branch of a tick (lines 83-98).  Line 86 tests
`grace_period_end and current_time <= grace_period_end`: Python
truthiness of the optional float, then the comparison. -/
def controllerTickPresent (now : ℚ) (s : ControllerState) : ControllerState :=
  if s.session_active = true then
    if qTruthy s.grace_period_end = true ∧ now ≤ s.grace_period_end.getD 0 then
      { s with grace_period_end := none }
    else
      { session_active := true, grace_period_end := none }
  else
    { s with session_active := true }

/-- The `else` branch of a tick (lines 99-106): if the session is active
and no deadline is set, set it to `time.time() + SESSION_GRACE_PERIOD`;
otherwise, if the session is active and `time.time()` exceeds the
deadline, mark the session inactive and clear the deadline; otherwise do
nothing.  The `elif` comparison reads `grace_period_end` directly, which
is non-`None` whenever that branch is reached; the embedding reads it
with an `Option.getD` default that is unreachable there. -/
def controllerTickAbsent (now : ℚ) (s : ControllerState) : ControllerState :=
  if s.session_active = true ∧ s.grace_period_end = none then
    { s with grace_period_end := some (now + SESSION_GRACE_PERIOD) }
  else if s.session_active = true ∧ s.grace_period_end.getD 0 < now then
    { session_active := false, grace_period_end := none }
  else
    s

/-- One poll tick of `main` (lines 80-108): `port_name` is what
`find_esp32_port` returned, `now` the tick's `time.time()` sample. -/
def controllerTick (port_name : Option String) (now : ℚ)
    (s : ControllerState) : ControllerState :=
  if strTruthy port_name = true then controllerTickPresent now s
  else controllerTickAbsent now s

/-- Run a sequence of ticks on which the device is never located. -/
def runAbsent (ts : List ℚ) (s : ControllerState) : ControllerState :=
  ts.foldl (fun st t => controllerTick none t st) s

/-- Run a sequence of ticks, each given by its locator result and its
clock sample. -/
def runTicks (inputs : List (Option String × ℚ)) (s : ControllerState) :
    ControllerState :=
  inputs.foldl (fun st x => controllerTick x.1 x.2 st) s

/-- A tick of `main` when the enumeration collaborator itself fails:
line 81 calls `find_esp32_port()` with no `try`/`except` anywhere in
`main`, so an error propagates out of the loop (and terminates the
process); only a successful call reaches the branching. -/
def main_tick_exc (res : Except String (List PortInfo)) (now : ℚ)
    (s : ControllerState) : Except String ControllerState :=
  match res with
  | Except.error e => Except.error e
  | Except.ok ports => Except.ok (controllerTick (find_esp32_port ports) now s)

/-! ## Helper lemmas -/

theorem tick_none_wait (d t : ℚ) (h : t ≤ d) :
    controllerTick none t { session_active := true, grace_period_end := some d } =
      { session_active := true, grace_period_end := some d } := by
  simp [controllerTick, strTruthy, controllerTickAbsent, not_lt.mpr h]

theorem tick_none_expire (d t : ℚ) (h : d < t) :
    controllerTick none t { session_active := true, grace_period_end := some d } =
      { session_active := false, grace_period_end := none } := by
  simp [controllerTick, strTruthy, controllerTickAbsent, h]

theorem runAbsent_cons (t : ℚ) (l : List ℚ) (s : ControllerState) :
    runAbsent (t :: l) s = runAbsent l (controllerTick none t s) := rfl

theorem runAbsent_stay (d : ℚ) :
    ∀ l : List ℚ, (∀ t ∈ l, t ≤ d) →
      runAbsent l { session_active := true, grace_period_end := some d } =
        { session_active := true, grace_period_end := some d }
  | [], _ => rfl
  | t :: l, h => by
    rw [runAbsent_cons, tick_none_wait d t (h t (by simp))]
    exact runAbsent_stay d l (fun x hx => h x (by simp [hx]))

/-! ## Claims about the session controller state machine -/

/-- C1: at a poll tick where the session is active, the device is not
located and no grace deadline is set, the tick sets the deadline to the
tick's clock sample plus `SESSION_GRACE_PERIOD`, and leaves the rest of
the session state (the `session_active` flag) unchanged. -/
theorem claim_C1_grace_deadline_set (s : ControllerState) (now : ℚ)
    (hact : s.session_active = true) (hgp : s.grace_period_end = none) :
    controllerTick none now s =
      { session_active := s.session_active,
        grace_period_end := some (now + SESSION_GRACE_PERIOD) } := by
  simp [controllerTick, strTruthy, controllerTickAbsent, hact, hgp]

theorem claim_C1_witness :
    ({ session_active := true, grace_period_end := none } :
        ControllerState).session_active = true ∧
    controllerTick none 0 { session_active := true, grace_period_end := none } =
      { session_active := true, grace_period_end := some (0 + SESSION_GRACE_PERIOD) } :=
  ⟨rfl, claim_C1_grace_deadline_set
    { session_active := true, grace_period_end := none } 0 rfl rfl⟩

/-- C2: starting from an active session whose grace deadline `d` is set,
with the device never located again: after every earlier tick (every
prefix of the ticks whose clock samples are at most `d`) the session is
still active with the deadline unchanged, and at the first tick whose
clock sample exceeds `d` the session is marked inactive and the deadline
cleared. -/
theorem claim_C2_grace_expiry (d t : ℚ) (pre : List ℚ)
    (hpre : ∀ x ∈ pre, x ≤ d) (ht : d < t) :
    (∀ pre1 pre2, pre = pre1 ++ pre2 →
        runAbsent pre1 { session_active := true, grace_period_end := some d } =
          { session_active := true, grace_period_end := some d }) ∧
    runAbsent (pre ++ [t]) { session_active := true, grace_period_end := some d } =
      { session_active := false, grace_period_end := none } := by
  constructor
  · intro pre1 pre2 hsplit
    refine runAbsent_stay d pre1 (fun x hx => hpre x ?_)
    rw [hsplit]
    exact List.mem_append_left _ hx
  · rw [runAbsent, List.foldl_append]
    have h1 := runAbsent_stay d pre hpre
    rw [runAbsent] at h1
    rw [h1]
    simpa using tick_none_expire d t ht

theorem claim_C2_witness :
    (∀ x ∈ [(1 : ℚ), 2], x ≤ 2) ∧ ((2 : ℚ) < 3) ∧
    ((∀ pre1 pre2, [(1 : ℚ), 2] = pre1 ++ pre2 →
        runAbsent pre1 { session_active := true, grace_period_end := some 2 } =
          { session_active := true, grace_period_end := some 2 }) ∧
      runAbsent ([(1 : ℚ), 2] ++ [3])
          { session_active := true, grace_period_end := some 2 } =
        { session_active := false, grace_period_end := none }) :=
  ⟨by decide, by decide, claim_C2_grace_expiry 2 3 [1, 2] (by decide) (by decide)⟩

/-! ## Claims about error handling -/

/-- C4, counterexample: when the enumeration collaborator raises, the
locator call does not behave as if no device matched — the error
propagates instead of producing the "no match" result. -/
theorem claim_C4_counterexample :
    find_esp32_port_exc (Except.error "OSError") ≠ Except.ok none := by
  simp [find_esp32_port_exc]

/-- C4, as amended: `find_esp32_port` has no exception handler, and
neither has `main`, so an error raised by the port-enumeration
collaborator propagates unchanged out of the locator call and out of the
controller's poll tick. -/
theorem claim_C4_error_propagates (e : String) (now : ℚ) (s : ControllerState) :
    find_esp32_port_exc (Except.error e) = Except.error e ∧
    main_tick_exc (Except.error e) now s = Except.error e :=
  ⟨rfl, rfl⟩

/-- C7: an I/O failure raised anywhere inside a capture invocation is
caught at the invocation boundary, one line with a bracketed timestamp
and the failure message is appended to the issue log, and the invocation
returns normally (nothing propagates to the controller loop, which then
resumes polling). -/
theorem claim_C7_capture_error_boundary (ts e : String) :
    (start_logging_session ts (Except.error e)).raised = none ∧
    (start_logging_session ts (Except.error e)).issue_lines =
      ["[" ++ ts ++ "] " ++ ("Error during logging session: " ++ e) ++ "\n"] :=
  ⟨rfl, rfl⟩

/-! ## Claims about the device locator -/

/-- C9: a port descriptor whose vendor identifier is absent or zero, or
whose manufacturer string is absent, is skipped by the locator: the scan
continues with the remaining descriptors exactly as if the descriptor
were not there, so its identifier is never returned. -/
theorem claim_C9_skip_incomplete (p : PortInfo) (rest : List PortInfo)
    (h : p.vid = none ∨ p.vid = some 0 ∨ p.manufacturer = none) :
    find_esp32_port (p :: rest) = find_esp32_port rest := by
  rcases h with h | h | h <;> simp [find_esp32_port, vidTruthy, strTruthy, h]

theorem claim_C9_witness :
    ((⟨some 12346, none, "/dev/ttyACM0"⟩ : PortInfo).manufacturer = none) ∧
    find_esp32_port [⟨some 12346, none, "/dev/ttyACM0"⟩] = find_esp32_port [] :=
  ⟨rfl, claim_C9_skip_incomplete ⟨some 12346, none, "/dev/ttyACM0"⟩ []
    (Or.inr (Or.inr rfl))⟩

/-! ## Claims about log files -/

/-- C10: the log file name is a function of the invocation start time at
one-second granularity, and the file is opened in write-truncate mode;
two capture invocations starting within the same second (equal
second-granularity clock fields) therefore target the same path, and the
second invocation's open erases what the first one wrote. -/
theorem claim_C10_same_second_truncates (t1 t2 : DateTimeFields) (hsec : t1 = t2)
    (fs : FSystem) (data : String) :
    log_filename t1 = log_filename t2 ∧
    fsOpenW (fsWrite (fsOpenW fs (log_filename t1)) (log_filename t1) data)
        (log_filename t2) (log_filename t1) = "" := by
  subst hsec
  exact ⟨rfl, by simp [fsOpenW]⟩

theorem claim_C10_witness :
    ((⟨2025, 5, 18, 12, 0, 0⟩ : DateTimeFields) = ⟨2025, 5, 18, 12, 0, 0⟩) ∧
    (log_filename ⟨2025, 5, 18, 12, 0, 0⟩ = log_filename ⟨2025, 5, 18, 12, 0, 0⟩ ∧
      fsOpenW (fsWrite (fsOpenW (fun _ => "") (log_filename ⟨2025, 5, 18, 12, 0, 0⟩))
          (log_filename ⟨2025, 5, 18, 12, 0, 0⟩) "hello")
        (log_filename ⟨2025, 5, 18, 12, 0, 0⟩) (log_filename ⟨2025, 5, 18, 12, 0, 0⟩) = "") :=
  ⟨rfl, claim_C10_same_second_truncates ⟨2025, 5, 18, 12, 0, 0⟩
    ⟨2025, 5, 18, 12, 0, 0⟩ rfl (fun _ => "") "hello"⟩

theorem pad4_eq_vendor (s : String) : pad4 s = VENDOR_ID ↔ s = VENDOR_ID := by
  obtain ⟨l⟩ := s
  constructor
  · intro h
    have hd : List.replicate (4 - (String.mk l).length) '0' ++ l = VENDOR_ID.data :=
      congrArg String.data h
    have h303 : VENDOR_ID.data = ['3', '0', '3', 'a'] := rfl
    have hlen : (String.mk l).length = l.length := rfl
    rw [h303, hlen] at hd
    cases h4 : 4 - l.length with
    | zero =>
      rw [h4] at hd
      simp at hd
      exact String.ext hd
    | succ k =>
      rw [h4, List.replicate_succ] at hd
      injection hd with h1 _
      exact absurd h1 (by decide)
  · intro h
    rw [h]
    rfl

theorem find_head (p : PortInfo) (rest : List PortInfo) :
    find_esp32_port (p :: rest) =
      if spec_port_match p then some p.device else find_esp32_port rest := by
  rcases p with ⟨vid, man, dev⟩
  rcases vid with _ | v
  · simp [find_esp32_port, vidTruthy, spec_port_match]
  rcases man with _ | m
  · simp [find_esp32_port, vidTruthy, strTruthy, spec_port_match]
  by_cases hvd : pyHex v = VENDOR_ID
  · by_cases hcd : strContains m MANUFACTURER_NAME = true
    · have hv0 : v ≠ 0 := by
        intro h0
        subst h0
        exact absurd hvd (by decide)
      have hm0 : m ≠ "" := by
        intro h0
        subst h0
        simp [strContains, occursIn, MANUFACTURER_NAME, List.isEmpty] at hcd
      have hpad : pad4 (pyHex v) = VENDOR_ID := (pad4_eq_vendor _).mpr hvd
      have hpad2 : pad4 VENDOR_ID = VENDOR_ID := (pad4_eq_vendor _).mpr rfl
      simp [find_esp32_port, vidTruthy, strTruthy, spec_port_match, spec_vid_match,
        pyFormat04x, hpad, hpad2, hcd, hv0, hm0, hvd]
    · have hcd' : strContains m MANUFACTURER_NAME = false := by
        simpa using hcd
      simp [find_esp32_port, vidTruthy, strTruthy, spec_port_match, spec_vid_match,
        pyFormat04x, hcd']
  · have hpad : pad4 (pyHex v) ≠ VENDOR_ID := fun h => hvd ((pad4_eq_vendor _).mp h)
    simp [find_esp32_port, vidTruthy, strTruthy, spec_port_match, spec_vid_match,
      pyFormat04x, hpad, hvd]

/-- C3: the locator agrees everywhere with its specification reading:
it returns the identifier of the first enumerated descriptor whose
vendor identifier equals the configured constant under a
case-insensitive hexadecimal comparison and whose manufacturer string
contains the configured substring, and none when no descriptor
matches. -/
theorem claim_C3_locator_refines_spec (ports : List PortInfo) :
    find_esp32_port ports = find_esp32_port_spec ports := by
  induction ports with
  | nil => rfl
  | cons p rest ih =>
    rw [find_head]
    cases hm : spec_port_match p with
    | false =>
      rw [if_neg (by simp [hm]), ih, find_esp32_port_spec, find_esp32_port_spec,
        List.find?_cons_of_neg rest (show ¬spec_port_match p = true by simp [hm])]
    | true =>
      rw [if_pos rfl, find_esp32_port_spec, List.find?_cons_of_pos rest hm]
      rfl

/-! ## Claims about the capture loop's flush window -/

theorem flush_head_in (dtime t1 : ℚ) (a1 : String) (rest : List (ℚ × String))
    (hwin : t1 - dtime < POST_DISCONNECT_FLUSH_DELAY) :
    flush_window_writes dtime ((t1, a1) :: rest) =
      (if a1 ≠ "" then [(t1, a1)] else []) ++ flush_window_writes dtime rest := by
  simp only [flush_window_writes, if_pos hwin]

theorem session_writes_detect (dtime : ℚ) (inner : List (ℚ × String))
    (aDet : String) (post : List OuterIter) :
    session_writes dtime inner ({ devExists := false, avail := aDet } :: post) =
      (flush_window_writes dtime inner).map Prod.snd := by
  simp [session_writes]

theorem session_writes_cons_true (dtime : ℚ) (inner : List (ℚ × String))
    (it : OuterIter) (tail : List OuterIter) (h : it.devExists = true) :
    session_writes dtime inner (it :: tail) =
      (if it.avail ≠ "" then [it.avail] else []) ++ session_writes dtime inner tail := by
  simp [session_writes, h]

theorem joinAll_append (l1 l2 : List String) :
    joinAll (l1 ++ l2) = joinAll l1 ++ joinAll l2 := by
  induction l1 with
  | nil => simp [joinAll, String.empty_append]
  | cons s l ih => simp [joinAll, ih, String.append_assoc]

/-- C5: consider a capture invocation whose device disappears at some
outer iteration (`os.path.exists` answers false after some iterations
with the device present), and whose first flush-window iteration samples
the clock within the window.  The buffer content available at that first
sample — which includes everything buffered at the instant of
detection — is written to the invocation's log file: the final log
content contains it, in one piece, before the invocation returns. -/
theorem claim_C5_flush_completeness (dtime t1 : ℚ) (a1 : String)
    (rest : List (ℚ × String)) (pre post : List OuterIter) (aDet : String)
    (hpre : ∀ it ∈ pre, it.devExists = true)
    (hwin : t1 - dtime < POST_DISCONNECT_FLUSH_DELAY) :
    ∃ before after,
      log_content dtime (pre ++ { devExists := false, avail := aDet } :: post)
          ((t1, a1) :: rest) = before ++ a1 ++ after := by
  revert hpre
  induction pre with
  | nil =>
    intro _
    refine ⟨"", joinAll ((flush_window_writes dtime rest).map Prod.snd), ?_⟩
    rw [List.nil_append, log_content, session_writes_detect,
      flush_head_in dtime t1 a1 rest hwin, List.map_append, joinAll_append]
    by_cases ha : a1 = ""
    · subst ha
      simp [joinAll, String.empty_append]
    · rw [if_pos ha]
      simp [joinAll, String.empty_append, String.append_empty]
  | cons it pre2 ih =>
    intro hpre
    have hit : it.devExists = true := hpre it (List.mem_cons_self it pre2)
    obtain ⟨before, after, hba⟩ :=
      ih (fun x hx => hpre x (List.mem_cons_of_mem it hx))
    refine ⟨(if it.avail ≠ "" then it.avail else "") ++ before, after, ?_⟩
    rw [List.cons_append, log_content, session_writes_cons_true _ _ _ _ hit,
      joinAll_append]
    rw [log_content] at hba
    rw [hba]
    by_cases ha : it.avail = ""
    · simp [ha, joinAll, String.empty_append, String.append_assoc]
    · simp [ha, joinAll, String.append_empty, String.append_assoc]

theorem claim_C5_witness :
    (∀ it ∈ ([{ devExists := true, avail := "x" }] : List OuterIter),
        it.devExists = true) ∧
    ((1 : ℚ) / 2 - 0 < POST_DISCONNECT_FLUSH_DELAY) ∧
    (∃ before after,
      log_content 0
          ([{ devExists := true, avail := "x" }] ++
            { devExists := false, avail := "" } :: [])
          (((1 : ℚ) / 2, "ab") :: []) = before ++ "ab" ++ after) := by
  refine ⟨by simp, by norm_num [POST_DISCONNECT_FLUSH_DELAY], ?_⟩
  exact claim_C5_flush_completeness 0 (1 / 2) "ab" [] [{ devExists := true, avail := "x" }]
    [] "" (by simp) (by norm_num [POST_DISCONNECT_FLUSH_DELAY])

/-- C6: every write the post-disconnect flush loop performs is made at a
clock sample strictly less than `disconnect_time +
POST_DISCONNECT_FLUSH_DELAY`; at the first sample at or beyond the
window boundary the loop stops and the invocation returns, so nothing is
written after the window has elapsed. -/
theorem claim_C6_flush_window_bound (dtime : ℚ) (samples : List (ℚ × String))
    (t : ℚ) (a : String)
    (hmem : (t, a) ∈ flush_window_writes dtime samples) :
    t - dtime < POST_DISCONNECT_FLUSH_DELAY := by
  induction samples with
  | nil => simp [flush_window_writes] at hmem
  | cons hd rest ih =>
    obtain ⟨t2, a2⟩ := hd
    by_cases hw : t2 - dtime < POST_DISCONNECT_FLUSH_DELAY
    · rw [show flush_window_writes dtime ((t2, a2) :: rest) =
            (if a2 ≠ "" then [(t2, a2)] else []) ++ flush_window_writes dtime rest
          from by simp only [flush_window_writes, if_pos hw],
        List.mem_append] at hmem
      rcases hmem with hmem | hmem
      · by_cases ha : a2 = ""
        · simp [ha] at hmem
        · simp [ha] at hmem
          obtain ⟨rfl, rfl⟩ := hmem
          exact hw
      · exact ih hmem
    · rw [show flush_window_writes dtime ((t2, a2) :: rest) = []
          from by simp only [flush_window_writes, if_neg hw]] at hmem
      simp at hmem

theorem claim_C6_witness :
    (((0 : ℚ), "ab") ∈ flush_window_writes 0 [((0 : ℚ), "ab")]) ∧
    ((0 : ℚ) - 0 < POST_DISCONNECT_FLUSH_DELAY) := by
  have hm : ((0 : ℚ), "ab") ∈ flush_window_writes 0 [((0 : ℚ), "ab")] := by
    norm_num [flush_window_writes, POST_DISCONNECT_FLUSH_DELAY]
    decide
  exact ⟨hm, claim_C6_flush_window_bound 0 [((0 : ℚ), "ab")] 0 "ab" hm⟩

/-! ## The controller's deadline invariant -/

theorem tick_preserves_aux (p : Option String) (t : ℚ) (s : ControllerState)
    (h : s.grace_period_end ≠ none → s.session_active = true) :
    (controllerTick p t s).grace_period_end ≠ none →
      (controllerTick p t s).session_active = true := by
  unfold controllerTick controllerTickPresent controllerTickAbsent
  split_ifs <;> simp_all

theorem runTicks_aux :
    ∀ (l : List (Option String × ℚ)) (s : ControllerState),
      (s.grace_period_end ≠ none → s.session_active = true) →
      ((runTicks l s).grace_period_end ≠ none →
        (runTicks l s).session_active = true)
  | [], _, h => h
  | x :: l, s, h => runTicks_aux l _ (tick_preserves_aux x.1 x.2 s h)

theorem tick_iff (p : Option String) (t : ℚ) (s : ControllerState)
    (haux : s.grace_period_end ≠ none → s.session_active = true)
    (hp : p ≠ some "") :
    ((controllerTick p t s).grace_period_end ≠ none ↔
      ((controllerTick p t s).session_active = true ∧ p = none)) := by
  rcases p with _ | d
  · rw [show controllerTick none t s = controllerTickAbsent t s
        from by simp [controllerTick, strTruthy]]
    unfold controllerTickAbsent
    split_ifs with h1 h2
    · simp [h1.1]
    · simp
    · rcases hgp : s.grace_period_end with _ | g
      · have hact : s.session_active = false := by
          simp [hgp] at h1
          simpa using h1
        simp [hgp, hact]
      · have hact := haux (by simp [hgp])
        simp [hgp, hact]
  · have hd : d ≠ "" := fun h0 => hp (by rw [h0])
    rw [show controllerTick (some d) t s = controllerTickPresent t s
        from by simp [controllerTick, strTruthy, hd]]
    unfold controllerTickPresent
    split_ifs with h1 h2
    · simp
    · simp
    · have hgp : s.grace_period_end = none := by
        by_contra hne
        exact h1 (haux hne)
      simp [hgp]

/-- C8: along any run of the controller from its initial state, after
each completed poll tick the grace deadline is set if and only if the
session is active and that tick's locator call returned no device.
Locator results are device paths, hence never the empty string. -/
theorem claim_C8_deadline_invariant (pre : List (Option String × ℚ))
    (p : Option String) (t : ℚ) (hp : p ≠ some "") :
    ((runTicks (pre ++ [(p, t)]) initialState).grace_period_end ≠ none ↔
      ((runTicks (pre ++ [(p, t)]) initialState).session_active = true ∧
        p = none)) := by
  have haux := runTicks_aux pre initialState (by simp [initialState])
  have hsplit : runTicks (pre ++ [(p, t)]) initialState =
      controllerTick p t (runTicks pre initialState) := by
    rw [runTicks, List.foldl_append]
    rfl
  rw [hsplit]
  exact tick_iff p t _ haux hp

theorem claim_C8_witness :
    ((none : Option String) ≠ some "") ∧
    ((runTicks ([(some "/dev/ttyUSB0", 0), (none, 1)] ++ [(none, 2)])
          initialState).grace_period_end ≠ none ↔
      ((runTicks ([(some "/dev/ttyUSB0", 0), (none, 1)] ++ [(none, 2)])
          initialState).session_active = true ∧ (none : Option String) = none)) :=
  ⟨by decide, claim_C8_deadline_invariant [(some "/dev/ttyUSB0", 0), (none, 1)]
    none 2 (by decide)⟩
